import Mathlib

/-
Verification of the release-workflow orchestrator of the automtr2k repository.

The development shallowly embeds the TypeScript sources:
  - src/src/core/ConfigManager.ts (second unit: class GitManager) — the git
    primitive wrappers used by the plugin workflows;
  - src/plugins/standard-release/index.ts (StandardReleasePlugin.execute);
  - src/unnamed/part_003 (QimacertReleasePlugin.execute);
  - src/plugins/qima-legacy-release/index.ts (QimaLegacyReleasePlugin.execute
    and QimaReleasePlugin.execute / performRollback).

Git itself is an external collaborator: the outcome of each underlying git
invocation is supplied by an explicit environment record.  Two refinements of
that collaborator are used: a purely environmental one (GitEnv), in which every
outcome is chosen by the environment, and a stateful one (GitWorld/GitEnvW) in
which tag and branch existence are tracked concretely with the semantics the
specification gives in section 4.1 (a tag or branch creation fails exactly when
the name already exists).  Workflow control flow, the strings computed, and the
result records are translated directly from the TypeScript.
-/

namespace Automtr

/-- Character-list helper: does the first list occur at the head of the second? -/
def leadsList : List Char → List Char → Bool
  | [], _ => true
  | _ :: _, [] => false
  | a :: as, b :: bs => a == b && leadsList as bs

/-- Character-list helper: does the first list occur anywhere inside the second? -/
def containsSubAux (needle : List Char) : List Char → Bool
  | [] => needle.isEmpty
  | c :: rest => leadsList needle (c :: rest) || containsSubAux needle rest

/-- Substring test on strings, mirroring JavaScript String.prototype.includes. -/
def containsSub (needle hay : String) : Bool :=
  containsSubAux needle.data hay.data

/-- A failure raised by an underlying simple-git call: whether it is a GitError
instance, and its message.  GitManager.mergeBranch inspects both. -/
structure GitFailure where
  isGitError : Bool
  message : String
deriving DecidableEq, Repr

/-- Workflow kind of a repository, field type of BaseBranches in
src/src/types/index.ts. -/
inductive WorkflowKind
  | standard
  | custom
deriving DecidableEq, Repr

/-- BaseBranches from src/src/types/index.ts. -/
structure BaseBranches where
  develop : String
  production : String
  type : WorkflowKind
deriving DecidableEq, Repr

/-- Environment for the purely environmental refinement of GitManager: the
outcome of every underlying git invocation is chosen by the environment.
Function-typed fields are keyed by the branch or tag name the workflow passes. -/
structure GitEnv where
  fetchPruneOk : Bool
  fetchBranchOk : String → Bool
  checkoutOk : String → Bool
  pullOk : String → Bool
  tagOk : String → Bool
  pushTagsOk : Bool
  createBranchOk : String → Bool
  pushBranchOk : String → Bool
  mergeRaw : Option GitFailure
  mergeHeadAfterResume : Bool

/-- GitManager.fetchAndUpdate: git fetch --prune, plus for the custom kind an
explicit fetch of the develop branch. -/
def fetchAndUpdate (bb : BaseBranches) (env : GitEnv) : Except String Unit :=
  if env.fetchPruneOk then
    match bb.type with
    | .standard => .ok ()
    | .custom =>
      if env.fetchBranchOk bb.develop then .ok ()
      else .error "Failed to fetch and update"
  else .error "Failed to fetch and update"

/-- GitManager.checkoutBranch. -/
def checkoutBranch (b : String) (env : GitEnv) : Except String Unit :=
  if env.checkoutOk b then .ok ()
  else .error ("Failed to checkout branch " ++ b)

/-- GitManager.pullBranch. -/
def pullBranch (b : String) (env : GitEnv) : Except String Unit :=
  if env.pullOk b then .ok ()
  else .error ("Failed to pull branch " ++ b)

/-- GitManager.createTag. -/
def createTag (t : String) (env : GitEnv) : Except String Unit :=
  if env.tagOk t then .ok ()
  else .error ("Failed to create tag " ++ t)

/-- GitManager.pushTag.  The underlying call is git.pushTags, which pushes all
local tags; in this stateless refinement only success or failure is visible. -/
def pushTag (t : String) (env : GitEnv) : Except String Unit :=
  if env.pushTagsOk then .ok ()
  else .error ("Failed to push tag " ++ t)

/-- GitManager.createBranch (git checkout -b newName fromBranch). -/
def createBranch (newName fromBranch : String) (env : GitEnv) : Except String Unit :=
  if env.createBranchOk newName then .ok ()
  else .error ("Failed to create branch " ++ newName)

/-- GitManager.pushBranch. -/
def pushBranch (b : String) (env : GitEnv) : Except String Unit :=
  if env.pushBranchOk b then .ok ()
  else .error ("Failed to push branch " ++ b)

/-- GitManager.mergeBranch: tri-state.  A clean underlying merge returns true;
a GitError whose message mentions CONFLICT returns false; any other failure is
rethrown wrapped. -/
def mergeBranch (src : String) (env : GitEnv) : Except String Bool :=
  match env.mergeRaw with
  | none => .ok true
  | some f =>
    if f.isGitError && containsSub "CONFLICT" f.message then .ok false
    else .error ("Failed to merge " ++ src ++ ": " ++ f.message)

/-- GitManager.waitForConflictResolution: after the operator signals resume,
the presence of .git/MERGE_HEAD is checked; if it is still there the method
throws, otherwise it returns. -/
def waitForConflictResolution (env : GitEnv) : Except String Unit :=
  if env.mergeHeadAfterResume then
    .error "Merge is still in progress. Please complete the merge before continuing."
  else .ok ()

/-- Step 6 of the plugin workflows: merge, falling back to the conflict
resolution wait when mergeBranch reports a conflict (returns false). -/
def mergeStep (production : String) (env : GitEnv) : Except String Unit :=
  match mergeBranch production env with
  | .error m => .error m
  | .ok true => .ok ()
  | .ok false => waitForConflictResolution env

/-- ReleaseResult from src/src/types/index.ts.  The plugin mutates a local
result record as it goes; fields set before a failure are retained. -/
structure ReleaseResult where
  success : Bool
  rollbackTag : Option String
  releaseBranch : Option String
  versionTag : Option String
  finalReleaseBranch : Option String
  error : Option String
deriving DecidableEq, Repr

/-- The empty result a run starts from. -/
def emptyResult : ReleaseResult :=
  ⟨false, none, none, none, none, none⟩

/-- StandardReleasePlugin.execute (src/plugins/standard-release/index.ts),
with the result record the run assembles made explicit.  Each failure branch
returns the partial record with the error message recorded, exactly as the
catch clause does before rethrowing. -/
def standardReleaseRun (projectFolder tagName : String) (bb : BaseBranches)
    (env : GitEnv) : ReleaseResult :=
  let r0 := emptyResult
  match fetchAndUpdate bb env with
  | .error m => { r0 with error := some m }
  | .ok _ =>
  match checkoutBranch bb.develop env with
  | .error m => { r0 with error := some m }
  | .ok _ =>
  match pullBranch bb.develop env with
  | .error m => { r0 with error := some m }
  | .ok _ =>
  let rollbackTag := "rollback_" ++ bb.develop ++ "_v" ++ tagName
  match createTag rollbackTag env with
  | .error m => { r0 with error := some m }
  | .ok _ =>
  match pushTag rollbackTag env with
  | .error m => { r0 with error := some m }
  | .ok _ =>
  let rA := { r0 with rollbackTag := some rollbackTag }
  let releaseBranch := "release_" ++ bb.develop ++ "_" ++ tagName
  match createBranch releaseBranch bb.develop env with
  | .error m => { rA with error := some m }
  | .ok _ =>
  let rB := { rA with releaseBranch := some releaseBranch }
  match checkoutBranch bb.production env with
  | .error m => { rB with error := some m }
  | .ok _ =>
  match pullBranch bb.production env with
  | .error m => { rB with error := some m }
  | .ok _ =>
  match checkoutBranch releaseBranch env with
  | .error m => { rB with error := some m }
  | .ok _ =>
  match mergeStep bb.production env with
  | .error m => { rB with error := some m }
  | .ok _ =>
  let versionTag := "v_" ++ projectFolder ++ "_" ++ tagName
  match createTag versionTag env with
  | .error m => { rB with error := some m }
  | .ok _ =>
  match pushTag versionTag env with
  | .error m => { rB with error := some m }
  | .ok _ =>
  let rC := { rB with versionTag := some versionTag }
  match pushBranch releaseBranch env with
  | .error m => { rC with error := some m }
  | .ok _ =>
  let finalReleaseBranch := "release_" ++ bb.develop ++ "_" ++ tagName
  match createBranch finalReleaseBranch releaseBranch env with
  | .error m => { rC with error := some m }
  | .ok _ =>
  match pushBranch finalReleaseBranch env with
  | .error m => { rC with error := some m }
  | .ok _ =>
  let rD := { rC with finalReleaseBranch := some finalReleaseBranch }
  { rD with success := true }

/-- QimacertReleasePlugin.execute (src/unnamed/part_003): identical control
flow; the version tag uses the fixed v_qimacert_ template and the final
release branch the fixed release_develop_ template. -/
def qimacertReleaseRun (tagName : String) (bb : BaseBranches)
    (env : GitEnv) : ReleaseResult :=
  let r0 := emptyResult
  match fetchAndUpdate bb env with
  | .error m => { r0 with error := some m }
  | .ok _ =>
  match checkoutBranch bb.develop env with
  | .error m => { r0 with error := some m }
  | .ok _ =>
  match pullBranch bb.develop env with
  | .error m => { r0 with error := some m }
  | .ok _ =>
  let rollbackTag := "rollback_" ++ bb.develop ++ "_v" ++ tagName
  match createTag rollbackTag env with
  | .error m => { r0 with error := some m }
  | .ok _ =>
  match pushTag rollbackTag env with
  | .error m => { r0 with error := some m }
  | .ok _ =>
  let rA := { r0 with rollbackTag := some rollbackTag }
  let releaseBranch := "release_" ++ bb.develop ++ "_" ++ tagName
  match createBranch releaseBranch bb.develop env with
  | .error m => { rA with error := some m }
  | .ok _ =>
  let rB := { rA with releaseBranch := some releaseBranch }
  match checkoutBranch bb.production env with
  | .error m => { rB with error := some m }
  | .ok _ =>
  match pullBranch bb.production env with
  | .error m => { rB with error := some m }
  | .ok _ =>
  match checkoutBranch releaseBranch env with
  | .error m => { rB with error := some m }
  | .ok _ =>
  match mergeStep bb.production env with
  | .error m => { rB with error := some m }
  | .ok _ =>
  let versionTag := "v_qimacert_" ++ tagName
  match createTag versionTag env with
  | .error m => { rB with error := some m }
  | .ok _ =>
  match pushTag versionTag env with
  | .error m => { rB with error := some m }
  | .ok _ =>
  let rC := { rB with versionTag := some versionTag }
  match pushBranch releaseBranch env with
  | .error m => { rC with error := some m }
  | .ok _ =>
  let finalReleaseBranch := "release_develop_" ++ tagName
  match createBranch finalReleaseBranch releaseBranch env with
  | .error m => { rC with error := some m }
  | .ok _ =>
  match pushBranch finalReleaseBranch env with
  | .error m => { rC with error := some m }
  | .ok _ =>
  let rD := { rC with finalReleaseBranch := some finalReleaseBranch }
  { rD with success := true }

/-- All non-merge git operations succeed in this environment. -/
def GitEnv.opsOk (env : GitEnv) : Prop :=
  env.fetchPruneOk = true ∧ (∀ b, env.fetchBranchOk b = true) ∧
  (∀ b, env.checkoutOk b = true) ∧ (∀ b, env.pullOk b = true) ∧
  (∀ t, env.tagOk t = true) ∧ env.pushTagsOk = true ∧
  (∀ b, env.createBranchOk b = true) ∧ (∀ b, env.pushBranchOk b = true)

/-- Every git operation succeeds and the merge is clean. -/
def GitEnv.allOk (env : GitEnv) : Prop :=
  env.opsOk ∧ env.mergeRaw = none

/-- A concrete environment in which everything succeeds cleanly. -/
def envAllOk : GitEnv :=
  ⟨true, fun _ => true, fun _ => true, fun _ => true, fun _ => true, true,
    fun _ => true, fun _ => true, none, false⟩

/-- The standard request of the specification scenarios. -/
def bbStd : BaseBranches := ⟨"develop", "master", .standard⟩

/-- A merge failure that GitManager.mergeBranch classifies as a conflict. -/
def conflictFailure : GitFailure :=
  ⟨true, "CONFLICT (content): Merge conflict in shared file"⟩

/-- Every operation succeeds, the merge conflicts, and the operator resolves
the conflict before signalling resume (MERGE_HEAD is gone). -/
def envConflictResolved : GitEnv :=
  ⟨true, fun _ => true, fun _ => true, fun _ => true, fun _ => true, true,
    fun _ => true, fun _ => true, some conflictFailure, false⟩

/-- Every operation succeeds, the merge conflicts, and MERGE_HEAD is still
present when the operator signals resume. -/
def envConflictStuck : GitEnv :=
  ⟨true, fun _ => true, fun _ => true, fun _ => true, fun _ => true, true,
    fun _ => true, fun _ => true, some conflictFailure, true⟩

/-- Operator choice at the legacy conflict prompt (inquirer list). -/
inductive ResumeAction
  | cont
  | abort
deriving DecidableEq, Repr

/-- Environment of QimaLegacyReleasePlugin.execute: each shell command either
succeeds or fails, the show-current and porcelain commands produce output, and
the operator picks an action at the conflict prompt.  The mergeHead field
records whether .git/MERGE_HEAD is actually present after the operator acts;
the legacy plugin never consults it (its resume check reads only the porcelain
output), which is exactly what claim C5 is about. -/
structure LegacyEnv where
  currentBranchOutput : String -- trimmed stdout of git branch --show-current
  cmdOk : String → Bool
  operatorAction : ResumeAction
  porcelainOutput : String
  mergeHead : Bool

/-- Run a list of shell commands in order, extending the trace of attempted
commands; the first failing command ends the run with its error. -/
def seqRun (env : LegacyEnv) (acc : List String) :
    List String → List String × Option String
  | [] => (acc, none)
  | c :: rest =>
    if env.cmdOk c then seqRun env (acc ++ [c]) rest
    else (acc ++ [c], some ("command failed: " ++ c))

/-- The commands QimaLegacyReleasePlugin.execute issues before the merge,
with the default settings (developBranch develop, qimacertBranch
develop-qimacert, submodules disabled, autoPush enabled). -/
def legacyPreCmds (version : String) (env : LegacyEnv) : List String :=
  ["git branch --show-current"] ++
  (if env.currentBranchOutput == "develop-qimacert"
    then ["git checkout develop"] else []) ++
  ["git fetch --prune",
   "git fetch origin develop-qimacert:develop-qimacert --recurse-submodules=no --progress --prune",
   "git checkout develop-qimacert",
   "git pull origin develop-qimacert",
   "git tag rollback_develop_qimacert_v" ++ version,
   "git push origin rollback_develop_qimacert_v" ++ version,
   "git checkout -b release_develop_qimacert_" ++ version ++ " develop-qimacert",
   "git checkout develop",
   "git pull origin develop",
   "git checkout release_develop_qimacert_" ++ version]

/-- The commands QimaLegacyReleasePlugin.execute issues after the merge step. -/
def legacyTailCmds (version : String) : List String :=
  ["git tag v_qimacert_" ++ version,
   "git push origin v_qimacert_" ++ version,
   "git push --set-upstream origin release_develop_qimacert_" ++ version,
   "git checkout -b release_develop_" ++ version,
   "git push origin release_develop_" ++ version]

/-- QimaLegacyReleasePlugin.execute (src/plugins/qima-legacy-release/index.ts)
with the default settings: the pair of the trace of attempted commands and the
error the run rethrows (none on success).  On a merge failure the operator is
prompted: abort issues git merge --abort and throws the aborted error; cont
reads git status --porcelain and throws iff it still contains UU or AA. -/
def legacyExecute (version : String) (env : LegacyEnv) :
    List String × Option String :=
  match seqRun env [] (legacyPreCmds version env) with
  | (tr, some e) => (tr, some e)
  | (tr, none) =>
    if env.cmdOk "git merge develop" then
      seqRun env (tr ++ ["git merge develop"]) (legacyTailCmds version)
    else
      match env.operatorAction with
      | .abort =>
        if env.cmdOk "git merge --abort" then
          (tr ++ ["git merge develop", "git merge --abort"],
            some "Merge aborted by user")
        else
          (tr ++ ["git merge develop", "git merge --abort"],
            some "command failed: git merge --abort")
      | .cont =>
        if env.cmdOk "git status --porcelain" then
          if containsSub "UU" env.porcelainOutput ||
              containsSub "AA" env.porcelainOutput then
            (tr ++ ["git merge develop", "git status --porcelain"],
              some "Merge conflicts not fully resolved")
          else
            seqRun env (tr ++ ["git merge develop", "git status --porcelain"])
              (legacyTailCmds version)
        else
          (tr ++ ["git merge develop", "git status --porcelain"],
            some "command failed: git status --porcelain")

/-- A legacy run in which the merge conflicts and the operator aborts; every
other command succeeds.  MERGE_HEAD is present (the merge stopped mid-way). -/
def legacyEnvAbort : LegacyEnv :=
  ⟨"develop", fun c => !(c == "git merge develop"), .abort, "", true⟩

/-- A legacy run in which the merge conflicts, the operator stages the
resolved files without committing (porcelain shows staged entries, no UU/AA,
but MERGE_HEAD is still present) and then chooses to continue. -/
def legacyEnvStagedNotCommitted : LegacyEnv :=
  ⟨"develop", fun c => !(c == "git merge develop"), .cont, "M  pom.xml", true⟩

/-- The createdItems record QimaReleasePlugin.execute tracks for rollback
(src/plugins/qima-legacy-release/index.ts, second unit). -/
structure CreatedItems where
  tag : Bool
  tagPushed : Bool
  releaseBranch : Bool
  releaseBranchPushed : Bool
deriving DecidableEq, Repr

/-- Environment of QimaReleasePlugin: per-command outcomes and the output of
git branch --show-current. -/
structure QimaEnv where
  currentBranchOutput : String -- trimmed stdout of git branch --show-current
  cmdOk : String → Bool

/-- Run commands in order, recording each attempted command; the first failure
ends the sequence (the surrounding try/catch stops at the throwing command). -/
def runCmds (ok : String → Bool) (acc : List String) : List String → List String
  | [] => acc
  | c :: rest => if ok c then runCmds ok (acc ++ [c]) rest else acc ++ [c]

/-- The successive values of the createdItems record along
QimaReleasePlugin.execute with default settings (developBranch develop,
tag template v_qimacert_, release branch template release_, autoPush on):
tag is set after git tag -a, tagPushed after the tag push, releaseBranch after
git checkout -b, releaseBranchPushed after the branch push; a failing command
ends the run (the error path never touches the flags). -/
def qimaExecuteStates (version : String) (env : QimaEnv) : List CreatedItems :=
  if !(env.cmdOk "git branch --show-current") then
    [⟨false, false, false, false⟩]
  else if env.currentBranchOutput != "develop" &&
      !(env.cmdOk "git checkout develop") then
    [⟨false, false, false, false⟩]
  else if !(env.cmdOk "git fetch --prune") then
    [⟨false, false, false, false⟩]
  else if !(env.cmdOk "git pull origin develop") then
    [⟨false, false, false, false⟩]
  else if !(env.cmdOk ("git tag -a " ++ ("v_qimacert_" ++ version) ++
      " -m \"Release " ++ ("v_qimacert_" ++ version) ++ "\"")) then
    [⟨false, false, false, false⟩]
  else if !(env.cmdOk ("git push origin " ++ ("v_qimacert_" ++ version))) then
    [⟨false, false, false, false⟩, ⟨true, false, false, false⟩]
  else if !(env.cmdOk ("git checkout -b " ++ ("release_" ++ ("v_qimacert_" ++ version)) ++
      " " ++ ("v_qimacert_" ++ version))) then
    [⟨false, false, false, false⟩, ⟨true, false, false, false⟩,
      ⟨true, true, false, false⟩]
  else if !(env.cmdOk ("git push -u origin " ++ ("release_" ++ ("v_qimacert_" ++ version)))) then
    [⟨false, false, false, false⟩, ⟨true, false, false, false⟩,
      ⟨true, true, false, false⟩, ⟨true, true, true, false⟩]
  else
    [⟨false, false, false, false⟩, ⟨true, false, false, false⟩,
      ⟨true, true, false, false⟩, ⟨true, true, true, false⟩,
      ⟨true, true, true, true⟩]

/-- The deletion commands QimaReleasePlugin.performRollback issues, guarded by
the createdItems flags, in source order: switch to develop, delete local
branch, delete local tag, delete remote tag, delete remote branch. -/
def rollbackCmds (created : CreatedItems) (versionTag releaseBranch : String) :
    List String :=
  ["git checkout develop"] ++
  (if created.releaseBranch then ["git branch -D " ++ releaseBranch] else []) ++
  (if created.tag then ["git tag -d " ++ versionTag] else []) ++
  (if created.tagPushed then ["git push origin --delete " ++ versionTag] else []) ++
  (if created.releaseBranchPushed then ["git push origin --delete " ++ releaseBranch] else [])

/-- QimaReleasePlugin.performRollback: all commands run inside one try block,
so the first failing command jumps to the catch (which only logs — the method
never throws) and the remaining deletions are not attempted.  The value is the
trace of attempted commands. -/
def performRollback (created : CreatedItems) (versionTag releaseBranch : String)
    (env : QimaEnv) : List String :=
  runCmds env.cmdOk [] (rollbackCmds created versionTag releaseBranch)

/-- All createdItems flags set. -/
def ciAll : CreatedItems := ⟨true, true, true, true⟩

/-- A rollback environment in which only the remote tag deletion fails. -/
def qimaEnvRemoteTagFails : QimaEnv :=
  ⟨"develop", fun c => !(c == "git push origin --delete v_qimacert_2.02")⟩

/-- A rollback environment in which every command succeeds. -/
def qimaEnvAllOk : QimaEnv := ⟨"develop", fun _ => true⟩

/-- Concrete git repository state: which tags and branches exist locally and
on origin, the checked-out branch, and whether .git/MERGE_HEAD is present.
Modelled from the spec: the source delegates these to git itself; section 4.1
fixes the semantics (tag creation fails if the tag exists, createBranch fails
if the new name exists, checkout fails if the branch does not exist). -/
structure GitWorld where
  localTags : List String
  remoteTags : List String
  localBranches : List String
  remoteBranches : List String
  current : String
  mergeHead : Bool
deriving DecidableEq, Repr

/-- Environment for the stateful refinement: outcomes of the content-dependent
operations (fetch, pull, push, merge, conflict resolution) stay with the
environment; existence-dependent outcomes are decided by the GitWorld. -/
structure GitEnvW where
  fetchOk : Bool
  pullOk : String → Bool
  pushTagsOk : Bool
  pushBranchOk : String → Bool
  mergeRaw : Option GitFailure
  resolveClearsMergeHead : Bool

/-- GitManager.fetchAndUpdate over a git world (standard kind: fetch --prune
only). -/
def fetchAndUpdateW (env : GitEnvW) (w : GitWorld) : Except String GitWorld :=
  if env.fetchOk then .ok w else .error "Failed to fetch and update"

/-- GitManager.checkoutBranch over a git world. -/
def checkoutBranchW (b : String) (w : GitWorld) : Except String GitWorld :=
  if b ∈ w.localBranches then .ok { w with current := b }
  else .error ("Failed to checkout branch " ++ b)

/-- GitManager.pullBranch over a git world. -/
def pullBranchW (b : String) (env : GitEnvW) (w : GitWorld) :
    Except String GitWorld :=
  if env.pullOk b then .ok w else .error ("Failed to pull branch " ++ b)

/-- GitManager.createTag over a git world.  Modelled from the spec: git tag
fails if the tag already exists. -/
def createTagW (t : String) (w : GitWorld) : Except String GitWorld :=
  if t ∈ w.localTags then .error ("Failed to create tag " ++ t)
  else .ok { w with localTags := w.localTags ++ [t] }

/-- GitManager.pushTag over a git world: the underlying call is
git.pushTags(origin), which pushes every local tag, not only the named one. -/
def pushTagW (t : String) (env : GitEnvW) (w : GitWorld) :
    Except String GitWorld :=
  if env.pushTagsOk then
    .ok { w with remoteTags :=
      w.remoteTags ++ w.localTags.filter (fun x => !(w.remoteTags.contains x)) }
  else .error ("Failed to push tag " ++ t)

/-- GitManager.createBranch over a git world.  Modelled from the spec: git
checkout -b fails if the new name already exists (and if the base ref does not
exist); on success the new branch is checked out. -/
def createBranchW (newName base : String) (w : GitWorld) :
    Except String GitWorld :=
  if newName ∈ w.localBranches then
    .error ("Failed to create branch " ++ newName)
  else if base ∈ w.localBranches then
    .ok { w with localBranches := w.localBranches ++ [newName], current := newName }
  else .error ("Failed to create branch " ++ newName)

/-- GitManager.pushBranch over a git world. -/
def pushBranchW (b : String) (env : GitEnvW) (w : GitWorld) :
    Except String GitWorld :=
  if env.pushBranchOk b then
    .ok { w with remoteBranches :=
      if w.remoteBranches.contains b then w.remoteBranches
      else w.remoteBranches ++ [b] }
  else .error ("Failed to push branch " ++ b)

/-- GitManager.mergeBranch over a git world: a conflicted merge leaves
MERGE_HEAD behind. -/
def mergeBranchW (src : String) (env : GitEnvW) (w : GitWorld) :
    Except String (Bool × GitWorld) :=
  match env.mergeRaw with
  | none => .ok (true, w)
  | some f =>
    if f.isGitError && containsSub "CONFLICT" f.message then
      .ok (false, { w with mergeHead := true })
    else .error ("Failed to merge " ++ src ++ ": " ++ f.message)

/-- GitManager.waitForConflictResolution over a git world: the operator action
may clear MERGE_HEAD; the method then throws iff it is still present. -/
def waitForConflictResolutionW (env : GitEnvW) (w : GitWorld) :
    Except String GitWorld :=
  let w2 := if env.resolveClearsMergeHead then { w with mergeHead := false } else w
  if w2.mergeHead then
    .error "Merge is still in progress. Please complete the merge before continuing."
  else .ok w2

/-- Step 6 over a git world. -/
def mergeStepW (production : String) (env : GitEnvW) (w : GitWorld) :
    Except String GitWorld :=
  match mergeBranchW production env w with
  | .error m => .error m
  | .ok (true, w2) => .ok w2
  | .ok (false, w2) => waitForConflictResolutionW env w2

/-- StandardReleasePlugin.execute over a concrete git world: same control flow
and strings as standardReleaseRun, with tag and branch existence decided by
the world.  Returns the result record together with the world reached when the
run ends (successfully or at the failing step). -/
def standardReleaseRunGit (projectFolder tagName : String) (bb : BaseBranches)
    (env : GitEnvW) (w : GitWorld) : ReleaseResult × GitWorld :=
  let r0 := emptyResult
  match fetchAndUpdateW env w with
  | .error m => ({ r0 with error := some m }, w)
  | .ok w1 =>
  match checkoutBranchW bb.develop w1 with
  | .error m => ({ r0 with error := some m }, w1)
  | .ok w2 =>
  match pullBranchW bb.develop env w2 with
  | .error m => ({ r0 with error := some m }, w2)
  | .ok w3 =>
  let rollbackTag := "rollback_" ++ bb.develop ++ "_v" ++ tagName
  match createTagW rollbackTag w3 with
  | .error m => ({ r0 with error := some m }, w3)
  | .ok w4 =>
  match pushTagW rollbackTag env w4 with
  | .error m => ({ r0 with error := some m }, w4)
  | .ok w5 =>
  let rA := { r0 with rollbackTag := some rollbackTag }
  let releaseBranch := "release_" ++ bb.develop ++ "_" ++ tagName
  match createBranchW releaseBranch bb.develop w5 with
  | .error m => ({ rA with error := some m }, w5)
  | .ok w6 =>
  let rB := { rA with releaseBranch := some releaseBranch }
  match checkoutBranchW bb.production w6 with
  | .error m => ({ rB with error := some m }, w6)
  | .ok w7 =>
  match pullBranchW bb.production env w7 with
  | .error m => ({ rB with error := some m }, w7)
  | .ok w8 =>
  match checkoutBranchW releaseBranch w8 with
  | .error m => ({ rB with error := some m }, w8)
  | .ok w9 =>
  match mergeStepW bb.production env w9 with
  | .error m => ({ rB with error := some m }, w9)
  | .ok w10 =>
  let versionTag := "v_" ++ projectFolder ++ "_" ++ tagName
  match createTagW versionTag w10 with
  | .error m => ({ rB with error := some m }, w10)
  | .ok w11 =>
  match pushTagW versionTag env w11 with
  | .error m => ({ rB with error := some m }, w11)
  | .ok w12 =>
  let rC := { rB with versionTag := some versionTag }
  match pushBranchW releaseBranch env w12 with
  | .error m => ({ rC with error := some m }, w12)
  | .ok w13 =>
  let finalReleaseBranch := "release_" ++ bb.develop ++ "_" ++ tagName
  match createBranchW finalReleaseBranch releaseBranch w13 with
  | .error m => ({ rC with error := some m }, w13)
  | .ok w14 =>
  match pushBranchW finalReleaseBranch env w14 with
  | .error m => ({ rC with error := some m }, w14)
  | .ok w15 =>
  let rD := { rC with finalReleaseBranch := some finalReleaseBranch }
  ({ rD with success := true }, w15)

/-- A clean repository holding only the develop and master branches. -/
def cleanWorld : GitWorld :=
  ⟨[], [], ["develop", "master"], ["develop", "master"], "develop", false⟩

/-- Stateful environment in which every content operation succeeds and the
merge is clean. -/
def envWAllOk : GitEnvW :=
  ⟨true, fun _ => true, true, fun _ => true, none, false⟩

/-- A legacy run in which the merge conflicts, the porcelain still shows an
unmerged (UU) entry when the operator chooses to continue, and MERGE_HEAD is
present. -/
def legacyEnvUnresolvedContinue : LegacyEnv :=
  ⟨"develop", fun c => !(c == "git merge develop"), .cont, "UU pom.xml", true⟩

/-- A repository with two local tags neither of which is on origin. -/
def worldTwoTags : GitWorld :=
  ⟨["rollback_x", "other_tag"], [], ["develop"], [], "develop", false⟩

theorem envAllOk_allOk : envAllOk.allOk :=
  ⟨⟨rfl, fun _ => rfl, fun _ => rfl, fun _ => rfl, fun _ => rfl, rfl,
    fun _ => rfl, fun _ => rfl⟩, rfl⟩

/-- Either a standard run fails (success stays false), or its result record is
exactly the success record with the four computed artifact names. -/
theorem standardReleaseRun_success_shape (pf tag : String) (bb : BaseBranches)
    (env : GitEnv) :
    (standardReleaseRun pf tag bb env).success = false ∨
      standardReleaseRun pf tag bb env =
        ⟨true, some ("rollback_" ++ bb.develop ++ "_v" ++ tag),
          some ("release_" ++ bb.develop ++ "_" ++ tag),
          some ("v_" ++ pf ++ "_" ++ tag),
          some ("release_" ++ bb.develop ++ "_" ++ tag), none⟩ := by
  rcases h1 : fetchAndUpdate bb env with m1 | u1
  · simp [standardReleaseRun, h1, emptyResult]
  rcases h2 : checkoutBranch bb.develop env with m2 | u2
  · simp [standardReleaseRun, h1, h2, emptyResult]
  rcases h3 : pullBranch bb.develop env with m3 | u3
  · simp [standardReleaseRun, h1, h2, h3, emptyResult]
  rcases h4 : createTag ("rollback_" ++ bb.develop ++ "_v" ++ tag) env with m4 | u4
  · simp [standardReleaseRun, h1, h2, h3, h4, emptyResult]
  rcases h5 : pushTag ("rollback_" ++ bb.develop ++ "_v" ++ tag) env with m5 | u5
  · simp [standardReleaseRun, h1, h2, h3, h4, h5, emptyResult]
  rcases h6 : createBranch ("release_" ++ bb.develop ++ "_" ++ tag) bb.develop env with m6 | u6
  · simp [standardReleaseRun, h1, h2, h3, h4, h5, h6, emptyResult]
  rcases h7 : checkoutBranch bb.production env with m7 | u7
  · simp [standardReleaseRun, h1, h2, h3, h4, h5, h6, h7, emptyResult]
  rcases h8 : pullBranch bb.production env with m8 | u8
  · simp [standardReleaseRun, h1, h2, h3, h4, h5, h6, h7, h8, emptyResult]
  rcases h9 : checkoutBranch ("release_" ++ bb.develop ++ "_" ++ tag) env with m9 | u9
  · simp [standardReleaseRun, h1, h2, h3, h4, h5, h6, h7, h8, h9, emptyResult]
  rcases h10 : mergeStep bb.production env with m10 | u10
  · simp [standardReleaseRun, h1, h2, h3, h4, h5, h6, h7, h8, h9, h10, emptyResult]
  rcases h11 : createTag ("v_" ++ pf ++ "_" ++ tag) env with m11 | u11
  · simp [standardReleaseRun, h1, h2, h3, h4, h5, h6, h7, h8, h9, h10, h11, emptyResult]
  rcases h12 : pushTag ("v_" ++ pf ++ "_" ++ tag) env with m12 | u12
  · simp [standardReleaseRun, h1, h2, h3, h4, h5, h6, h7, h8, h9, h10, h11, h12, emptyResult]
  rcases h13 : pushBranch ("release_" ++ bb.develop ++ "_" ++ tag) env with m13 | u13
  · simp [standardReleaseRun, h1, h2, h3, h4, h5, h6, h7, h8, h9, h10, h11, h12, h13, emptyResult]
  rcases h14 : createBranch ("release_" ++ bb.develop ++ "_" ++ tag) ("release_" ++ bb.develop ++ "_" ++ tag) env with m14 | u14
  · simp [standardReleaseRun, h1, h2, h3, h4, h5, h6, h7, h8, h9, h10, h11, h12, h13, h14, emptyResult]
  simp [standardReleaseRun, h1, h2, h3, h4, h5, h6, h7, h8, h9, h10, h11, h12, h13, h14, emptyResult]

/-- Either a qimacert run fails, or its result record is exactly the success
record with the four computed artifact names (no project-folder dependence). -/
theorem qimacertReleaseRun_success_shape (tag : String) (bb : BaseBranches)
    (env : GitEnv) :
    (qimacertReleaseRun tag bb env).success = false ∨
      qimacertReleaseRun tag bb env =
        ⟨true, some ("rollback_" ++ bb.develop ++ "_v" ++ tag),
          some ("release_" ++ bb.develop ++ "_" ++ tag),
          some ("v_qimacert_" ++ tag),
          some ("release_develop_" ++ tag), none⟩ := by
  rcases h1 : fetchAndUpdate bb env with m1 | u1
  · simp [qimacertReleaseRun, h1, emptyResult]
  rcases h2 : checkoutBranch bb.develop env with m2 | u2
  · simp [qimacertReleaseRun, h1, h2, emptyResult]
  rcases h3 : pullBranch bb.develop env with m3 | u3
  · simp [qimacertReleaseRun, h1, h2, h3, emptyResult]
  rcases h4 : createTag ("rollback_" ++ bb.develop ++ "_v" ++ tag) env with m4 | u4
  · simp [qimacertReleaseRun, h1, h2, h3, h4, emptyResult]
  rcases h5 : pushTag ("rollback_" ++ bb.develop ++ "_v" ++ tag) env with m5 | u5
  · simp [qimacertReleaseRun, h1, h2, h3, h4, h5, emptyResult]
  rcases h6 : createBranch ("release_" ++ bb.develop ++ "_" ++ tag) bb.develop env with m6 | u6
  · simp [qimacertReleaseRun, h1, h2, h3, h4, h5, h6, emptyResult]
  rcases h7 : checkoutBranch bb.production env with m7 | u7
  · simp [qimacertReleaseRun, h1, h2, h3, h4, h5, h6, h7, emptyResult]
  rcases h8 : pullBranch bb.production env with m8 | u8
  · simp [qimacertReleaseRun, h1, h2, h3, h4, h5, h6, h7, h8, emptyResult]
  rcases h9 : checkoutBranch ("release_" ++ bb.develop ++ "_" ++ tag) env with m9 | u9
  · simp [qimacertReleaseRun, h1, h2, h3, h4, h5, h6, h7, h8, h9, emptyResult]
  rcases h10 : mergeStep bb.production env with m10 | u10
  · simp [qimacertReleaseRun, h1, h2, h3, h4, h5, h6, h7, h8, h9, h10, emptyResult]
  rcases h11 : createTag ("v_qimacert_" ++ tag) env with m11 | u11
  · simp [qimacertReleaseRun, h1, h2, h3, h4, h5, h6, h7, h8, h9, h10, h11, emptyResult]
  rcases h12 : pushTag ("v_qimacert_" ++ tag) env with m12 | u12
  · simp [qimacertReleaseRun, h1, h2, h3, h4, h5, h6, h7, h8, h9, h10, h11, h12, emptyResult]
  rcases h13 : pushBranch ("release_" ++ bb.develop ++ "_" ++ tag) env with m13 | u13
  · simp [qimacertReleaseRun, h1, h2, h3, h4, h5, h6, h7, h8, h9, h10, h11, h12, h13, emptyResult]
  rcases h14 : createBranch ("release_develop_" ++ tag) ("release_" ++ bb.develop ++ "_" ++ tag) env with m14 | u14
  · simp [qimacertReleaseRun, h1, h2, h3, h4, h5, h6, h7, h8, h9, h10, h11, h12, h13, h14, emptyResult]
  rcases h15 : pushBranch ("release_develop_" ++ tag) env with m15 | u15
  · simp [qimacertReleaseRun, h1, h2, h3, h4, h5, h6, h7, h8, h9, h10, h11, h12, h13, h14, h15, emptyResult]
  simp [qimacertReleaseRun, h1, h2, h3, h4, h5, h6, h7, h8, h9, h10, h11, h12, h13, h14, h15, emptyResult]

/-- C1: for the standard workflow kind, running the release on a request with
developBranch develop, productionBranch master and versionTag 1.0.0 against a
repository where every git operation succeeds and the merge is clean returns a
result with success true, rollbackTag rollback_develop_v1.0.0, releaseBranch
release_develop_1.0.0, versionTag v_(projectFolder)_1.0.0 and
finalReleaseBranch release_develop_1.0.0. -/
theorem c1_standard_scenarioA (pf : String) (env : GitEnv) (h : env.allOk) :
    standardReleaseRun pf "1.0.0" ⟨"develop", "master", .standard⟩ env =
      ⟨true, some "rollback_develop_v1.0.0", some "release_develop_1.0.0",
        some ("v_" ++ pf ++ "_" ++ "1.0.0"), some "release_develop_1.0.0", none⟩ := by
  obtain ⟨⟨hf, hfb, hco, hpu, htag, hpt, hcb, hpb⟩, hmr⟩ := h
  simp [standardReleaseRun, fetchAndUpdate, checkoutBranch, pullBranch,
    createTag, pushTag, createBranch, pushBranch, mergeStep, mergeBranch,
    hf, hco, hpu, htag, hpt, hcb, hpb, hmr, emptyResult]

/-- Witness for C1 at the concrete all-success environment. -/
theorem c1_standard_scenarioA_witness :
    envAllOk.allOk ∧
      standardReleaseRun "myrepo" "1.0.0" ⟨"develop", "master", .standard⟩ envAllOk =
        ⟨true, some "rollback_develop_v1.0.0", some "release_develop_1.0.0",
          some "v_myrepo_1.0.0", some "release_develop_1.0.0", none⟩ :=
  ⟨envAllOk_allOk, c1_standard_scenarioA "myrepo" envAllOk envAllOk_allOk⟩

/-- C2 counterexample: two successful standard runs agreeing on developBranch,
productionBranch, versionTag and workflowKind but run in different project
folders report different versionTag artifact names, so the artifact names are
not functions of those four inputs alone. -/
theorem c2_counterexample :
    (standardReleaseRun "alpha" "1.0.0" ⟨"develop", "master", .standard⟩ envAllOk).success = true ∧
    (standardReleaseRun "beta" "1.0.0" ⟨"develop", "master", .standard⟩ envAllOk).success = true ∧
    (standardReleaseRun "alpha" "1.0.0" ⟨"develop", "master", .standard⟩ envAllOk).versionTag ≠
      (standardReleaseRun "beta" "1.0.0" ⟨"develop", "master", .standard⟩ envAllOk).versionTag := by
  decide

/-- C2 amended: on successful runs, rollbackTag, releaseBranch and
finalReleaseBranch are determined by (developBranch, productionBranch,
versionTag, workflowKind); the standard workflow versionTag additionally
depends on the project folder name (it agrees between two runs when the
project folders also agree), while the qimacert workflow versionTag is
determined by the four inputs alone. -/
theorem c2_amended_determinism (pf1 pf2 tag : String) (bbS bbQ : BaseBranches)
    (env1 env2 env3 env4 : GitEnv)
    (h1 : (standardReleaseRun pf1 tag bbS env1).success = true)
    (h2 : (standardReleaseRun pf2 tag bbS env2).success = true)
    (h3 : (qimacertReleaseRun tag bbQ env3).success = true)
    (h4 : (qimacertReleaseRun tag bbQ env4).success = true) :
    ((standardReleaseRun pf1 tag bbS env1).rollbackTag =
        (standardReleaseRun pf2 tag bbS env2).rollbackTag ∧
      (standardReleaseRun pf1 tag bbS env1).releaseBranch =
        (standardReleaseRun pf2 tag bbS env2).releaseBranch ∧
      (standardReleaseRun pf1 tag bbS env1).finalReleaseBranch =
        (standardReleaseRun pf2 tag bbS env2).finalReleaseBranch ∧
      (pf1 = pf2 →
        (standardReleaseRun pf1 tag bbS env1).versionTag =
          (standardReleaseRun pf2 tag bbS env2).versionTag)) ∧
    (qimacertReleaseRun tag bbQ env3).rollbackTag =
        (qimacertReleaseRun tag bbQ env4).rollbackTag ∧
      (qimacertReleaseRun tag bbQ env3).releaseBranch =
        (qimacertReleaseRun tag bbQ env4).releaseBranch ∧
      (qimacertReleaseRun tag bbQ env3).finalReleaseBranch =
        (qimacertReleaseRun tag bbQ env4).finalReleaseBranch ∧
      (qimacertReleaseRun tag bbQ env3).versionTag =
        (qimacertReleaseRun tag bbQ env4).versionTag := by
  rcases standardReleaseRun_success_shape pf1 tag bbS env1 with hs1 | hs1
  · rw [h1] at hs1; exact absurd hs1 (by simp)
  rcases standardReleaseRun_success_shape pf2 tag bbS env2 with hs2 | hs2
  · rw [h2] at hs2; exact absurd hs2 (by simp)
  rcases qimacertReleaseRun_success_shape tag bbQ env3 with hs3 | hs3
  · rw [h3] at hs3; exact absurd hs3 (by simp)
  rcases qimacertReleaseRun_success_shape tag bbQ env4 with hs4 | hs4
  · rw [h4] at hs4; exact absurd hs4 (by simp)
  rw [hs1, hs2, hs3, hs4]
  refine ⟨⟨rfl, rfl, rfl, fun hpf => ?_⟩, rfl, rfl, rfl, rfl⟩
  rw [hpf]

/-- Witness for the amended C2 at concrete successful runs. -/
theorem c2_amended_determinism_witness :
    (standardReleaseRun "alpha" "2.0" ⟨"develop", "master", .standard⟩ envAllOk).success = true ∧
    (qimacertReleaseRun "2.0" ⟨"develop-qimacert", "develop", .custom⟩ envAllOk).success = true ∧
    ((standardReleaseRun "alpha" "2.0" ⟨"develop", "master", .standard⟩ envAllOk).rollbackTag =
        (standardReleaseRun "alpha" "2.0" ⟨"develop", "master", .standard⟩ envAllOk).rollbackTag ∧
      (standardReleaseRun "alpha" "2.0" ⟨"develop", "master", .standard⟩ envAllOk).releaseBranch =
        (standardReleaseRun "alpha" "2.0" ⟨"develop", "master", .standard⟩ envAllOk).releaseBranch ∧
      (standardReleaseRun "alpha" "2.0" ⟨"develop", "master", .standard⟩ envAllOk).finalReleaseBranch =
        (standardReleaseRun "alpha" "2.0" ⟨"develop", "master", .standard⟩ envAllOk).finalReleaseBranch ∧
      ("alpha" = "alpha" →
        (standardReleaseRun "alpha" "2.0" ⟨"develop", "master", .standard⟩ envAllOk).versionTag =
          (standardReleaseRun "alpha" "2.0" ⟨"develop", "master", .standard⟩ envAllOk).versionTag)) ∧
    (qimacertReleaseRun "2.0" ⟨"develop-qimacert", "develop", .custom⟩ envAllOk).rollbackTag =
        (qimacertReleaseRun "2.0" ⟨"develop-qimacert", "develop", .custom⟩ envAllOk).rollbackTag ∧
      (qimacertReleaseRun "2.0" ⟨"develop-qimacert", "develop", .custom⟩ envAllOk).releaseBranch =
        (qimacertReleaseRun "2.0" ⟨"develop-qimacert", "develop", .custom⟩ envAllOk).releaseBranch ∧
      (qimacertReleaseRun "2.0" ⟨"develop-qimacert", "develop", .custom⟩ envAllOk).finalReleaseBranch =
        (qimacertReleaseRun "2.0" ⟨"develop-qimacert", "develop", .custom⟩ envAllOk).finalReleaseBranch ∧
      (qimacertReleaseRun "2.0" ⟨"develop-qimacert", "develop", .custom⟩ envAllOk).versionTag =
        (qimacertReleaseRun "2.0" ⟨"develop-qimacert", "develop", .custom⟩ envAllOk).versionTag :=
  ⟨by decide, by decide,
    c2_amended_determinism "alpha" "alpha" "2.0" ⟨"develop", "master", .standard⟩
      ⟨"develop-qimacert", "develop", .custom⟩
      envAllOk envAllOk envAllOk envAllOk (by decide) (by decide) (by decide) (by decide)⟩

/-- Running a list of commands all of which succeed attempts every command in
order and reports no error. -/
theorem seqRun_all_ok (env : LegacyEnv) :
    ∀ (cmds acc : List String), (∀ c ∈ cmds, env.cmdOk c = true) →
    seqRun env acc cmds = (acc ++ cmds, none) := by
  intro cmds
  induction cmds with
  | nil => intro acc h; simp [seqRun]
  | cons c rest ih =>
    intro acc h
    have hc : env.cmdOk c = true := h c (by simp)
    have hrest : ∀ d ∈ rest, env.cmdOk d = true := fun d hd => h d (by simp [hd])
    simp [seqRun, hc, ih (acc ++ [c]) hrest]

/-- C3: the standard workflow computes the final release branch from the
develop branch, not the production branch: on the standard request the name is
release_develop_1.0.0 (identical to the step-4 release branch) and differs
from the release_(production)_(tag) the specification prescribes. -/
theorem c3_standard_final_branch_name :
    (standardReleaseRun "repo" "1.0.0" bbStd envAllOk).finalReleaseBranch =
      some "release_develop_1.0.0" ∧
    (standardReleaseRun "repo" "1.0.0" bbStd envAllOk).releaseBranch =
      some "release_develop_1.0.0" ∧
    "release_develop_1.0.0" ≠ "release_" ++ "master" ++ "_" ++ "1.0.0" := by
  decide

/-- C4: mergeBranch is tri-state — a clean underlying merge yields ok true; a
GitError mentioning CONFLICT yields ok false without raising; every other
failure raises the wrapped merge error — and a conflicted outcome alone never
terminates the run: with all other operations succeeding and the conflict
resolved before resume, the standard workflow still succeeds. -/
theorem c4_mergeBranch_tristate (src : String) (env : GitEnv) :
    (env.mergeRaw = none → mergeBranch src env = .ok true) ∧
    (∀ f, env.mergeRaw = some f →
      (f.isGitError && containsSub "CONFLICT" f.message) = true →
      mergeBranch src env = .ok false) ∧
    (∀ f, env.mergeRaw = some f →
      (f.isGitError && containsSub "CONFLICT" f.message) = false →
      mergeBranch src env =
        .error ("Failed to merge " ++ src ++ ": " ++ f.message)) ∧
    (∀ pf tag bb, env.opsOk → env.mergeHeadAfterResume = false →
      ∀ f, env.mergeRaw = some f →
      (f.isGitError && containsSub "CONFLICT" f.message) = true →
      (standardReleaseRun pf tag bb env).success = true) := by
  refine ⟨fun h => by simp [mergeBranch, h],
    fun f hf hc => by simp [mergeBranch, hf, hc],
    fun f hf hc => by simp [mergeBranch, hf, hc], ?_⟩
  rintro pf tag bb ⟨hf, hfb, hco, hpu, htag, hpt, hcb, hpb⟩ hmh f hmr hc
  rcases bb with ⟨dev, prod, ty⟩
  cases ty <;>
    simp [standardReleaseRun, fetchAndUpdate, checkoutBranch, pullBranch,
      createTag, pushTag, createBranch, pushBranch, mergeStep, mergeBranch,
      waitForConflictResolution, hf, hfb, hco, hpu, htag, hpt, hcb, hpb,
      hmh, hmr, hc, emptyResult]

/-- Witness for C4 at a concrete conflicted-then-resolved environment. -/
theorem c4_mergeBranch_tristate_witness :
    mergeBranch "master" envConflictResolved = .ok false ∧
    (standardReleaseRun "repo" "1.0.0" bbStd envConflictResolved).success = true :=
  ⟨(c4_mergeBranch_tristate "master" envConflictResolved).2.1 conflictFailure rfl
      (by decide),
    (c4_mergeBranch_tristate "master" envConflictResolved).2.2.2 "repo" "1.0.0" bbStd
      ⟨rfl, fun _ => rfl, fun _ => rfl, fun _ => rfl, fun _ => rfl, rfl,
        fun _ => rfl, fun _ => rfl⟩
      rfl conflictFailure rfl (by decide)⟩

/-- C5 counterexample: in the legacy plugin, when MERGE_HEAD is still present
after the operator resumes but the porcelain output shows no UU/AA entries
(conflicts staged but the merge not committed), the resume attempt does not
fail and the run proceeds to the version-tag step — the legacy resume check
never consults the merge-in-progress marker. -/
theorem c5_counterexample :
    legacyEnvStagedNotCommitted.mergeHead = true ∧
    (legacyExecute "2.02" legacyEnvStagedNotCommitted).2 = none ∧
    "git tag v_qimacert_2.02" ∈ (legacyExecute "2.02" legacyEnvStagedNotCommitted).1 := by
  decide

/-- C5 amended: GitManager.waitForConflictResolution (used by the standard and
qimacert workflows) fails the resume with the merge-still-in-progress error
iff MERGE_HEAD is present, in which case the standard workflow does not reach
the version-tag step; otherwise it returns and the workflow continues.  The
legacy plugin resume instead fails iff the porcelain output still contains
UU or AA entries, without consulting MERGE_HEAD. -/
theorem c5_amended_resume_check (env : GitEnv) (lenv : LegacyEnv) :
    (env.mergeHeadAfterResume = true →
      waitForConflictResolution env =
        .error "Merge is still in progress. Please complete the merge before continuing.") ∧
    (env.mergeHeadAfterResume = false → waitForConflictResolution env = .ok ()) ∧
    (∀ pf tag bb f, env.mergeRaw = some f →
      (f.isGitError && containsSub "CONFLICT" f.message) = true →
      env.mergeHeadAfterResume = true →
      (standardReleaseRun pf tag bb env).versionTag = none ∧
        (standardReleaseRun pf tag bb env).success = false) ∧
    ((∀ c, c ≠ "git merge develop" → lenv.cmdOk c = true) →
      lenv.cmdOk "git merge develop" = false →
      lenv.operatorAction = .cont →
      (containsSub "UU" lenv.porcelainOutput ||
        containsSub "AA" lenv.porcelainOutput) = true →
      (legacyExecute "2.02" lenv).2 = some "Merge conflicts not fully resolved") := by
  refine ⟨fun h => by simp [waitForConflictResolution, h],
    fun h => by simp [waitForConflictResolution, h], ?_, ?_⟩
  · intro pf tag bb f hmr hc hmh
    have hms : mergeStep bb.production env =
        .error "Merge is still in progress. Please complete the merge before continuing." := by
      simp [mergeStep, mergeBranch, hmr, hc, waitForConflictResolution, hmh]
    rcases h1 : fetchAndUpdate bb env with m1 | u1
    · simp [standardReleaseRun, h1, emptyResult]
    rcases h2 : checkoutBranch bb.develop env with m2 | u2
    · simp [standardReleaseRun, h1, h2, emptyResult]
    rcases h3 : pullBranch bb.develop env with m3 | u3
    · simp [standardReleaseRun, h1, h2, h3, emptyResult]
    rcases h4 : createTag ("rollback_" ++ bb.develop ++ "_v" ++ tag) env with m4 | u4
    · simp [standardReleaseRun, h1, h2, h3, h4, emptyResult]
    rcases h5 : pushTag ("rollback_" ++ bb.develop ++ "_v" ++ tag) env with m5 | u5
    · simp [standardReleaseRun, h1, h2, h3, h4, h5, emptyResult]
    rcases h6 : createBranch ("release_" ++ bb.develop ++ "_" ++ tag) bb.develop env with m6 | u6
    · simp [standardReleaseRun, h1, h2, h3, h4, h5, h6, emptyResult]
    rcases h7 : checkoutBranch bb.production env with m7 | u7
    · simp [standardReleaseRun, h1, h2, h3, h4, h5, h6, h7, emptyResult]
    rcases h8 : pullBranch bb.production env with m8 | u8
    · simp [standardReleaseRun, h1, h2, h3, h4, h5, h6, h7, h8, emptyResult]
    rcases h9 : checkoutBranch ("release_" ++ bb.develop ++ "_" ++ tag) env with m9 | u9
    · simp [standardReleaseRun, h1, h2, h3, h4, h5, h6, h7, h8, h9, emptyResult]
    simp [standardReleaseRun, h1, h2, h3, h4, h5, h6, h7, h8, h9, hms, emptyResult]
  · intro hok hm ha hporc
    have hpre : ∀ c ∈ legacyPreCmds "2.02" lenv, lenv.cmdOk c = true := by
      intro c hc
      apply hok
      cases hb : lenv.currentBranchOutput == "develop-qimacert" <;>
        simp [legacyPreCmds, hb] at hc <;>
        rcases hc with rfl | rfl | rfl | rfl | rfl | rfl | rfl | rfl | rfl | rfl | rfl | rfl <;>
        decide
    have hstat : lenv.cmdOk "git status --porcelain" = true := hok _ (by decide)
    simp [legacyExecute, seqRun_all_ok lenv (legacyPreCmds "2.02" lenv) [] hpre,
      hm, ha, hstat, hporc]

/-- Witness for the amended C5 at concrete environments. -/
theorem c5_amended_resume_check_witness :
    waitForConflictResolution envConflictStuck =
      .error "Merge is still in progress. Please complete the merge before continuing." ∧
    waitForConflictResolution envConflictResolved = .ok () ∧
    ((standardReleaseRun "repo" "1.0.0" bbStd envConflictStuck).versionTag = none ∧
      (standardReleaseRun "repo" "1.0.0" bbStd envConflictStuck).success = false) ∧
    (legacyExecute "2.02" legacyEnvUnresolvedContinue).2 =
      some "Merge conflicts not fully resolved" :=
  ⟨(c5_amended_resume_check envConflictStuck legacyEnvUnresolvedContinue).1 rfl,
    (c5_amended_resume_check envConflictResolved legacyEnvUnresolvedContinue).2.1 rfl,
    (c5_amended_resume_check envConflictStuck legacyEnvUnresolvedContinue).2.2.1
      "repo" "1.0.0" bbStd conflictFailure rfl (by decide) rfl,
    (c5_amended_resume_check envConflictStuck legacyEnvUnresolvedContinue).2.2.2
      (fun c hc => by simp [legacyEnvUnresolvedContinue, hc]) (by decide) rfl (by decide)⟩

/-- C6 counterexample: a conflicted merge with the operator aborting — the
merge-abort command is issued and the run fails with a message containing
aborted, but the rollback tag and release branch created earlier are never
deleted: no deletion command appears in the trace. -/
theorem c6_counterexample :
    (legacyExecute "2.02" legacyEnvAbort).2 = some "Merge aborted by user" ∧
    containsSub "aborted" "Merge aborted by user" = true ∧
    "git merge --abort" ∈ (legacyExecute "2.02" legacyEnvAbort).1 ∧
    "git tag rollback_develop_qimacert_v2.02" ∈ (legacyExecute "2.02" legacyEnvAbort).1 ∧
    "git checkout -b release_develop_qimacert_2.02 develop-qimacert" ∈
      (legacyExecute "2.02" legacyEnvAbort).1 ∧
    "git tag -d rollback_develop_qimacert_v2.02" ∉ (legacyExecute "2.02" legacyEnvAbort).1 ∧
    "git branch -D release_develop_qimacert_2.02" ∉ (legacyExecute "2.02" legacyEnvAbort).1 ∧
    "git push origin --delete rollback_develop_qimacert_v2.02" ∉
      (legacyExecute "2.02" legacyEnvAbort).1 ∧
    "git push origin --delete release_develop_qimacert_2.02" ∉
      (legacyExecute "2.02" legacyEnvAbort).1 := by
  decide

/-- C6 amended: when the merge is conflicted and the operator chooses abort,
the legacy plugin issues git merge --abort and the run fails with the
Merge-aborted-by-user error (which contains aborted); no rollback occurs — the
run issues no command deleting the rollback tag or the release branch, locally
or on origin. -/
theorem c6_amended_abort_no_rollback (lenv : LegacyEnv)
    (hok : ∀ c, c ≠ "git merge develop" → lenv.cmdOk c = true)
    (hm : lenv.cmdOk "git merge develop" = false)
    (ha : lenv.operatorAction = .abort) :
    (legacyExecute "2.02" lenv).2 = some "Merge aborted by user" ∧
    containsSub "aborted" "Merge aborted by user" = true ∧
    "git merge --abort" ∈ (legacyExecute "2.02" lenv).1 ∧
    "git tag -d rollback_develop_qimacert_v2.02" ∉ (legacyExecute "2.02" lenv).1 ∧
    "git branch -D release_develop_qimacert_2.02" ∉ (legacyExecute "2.02" lenv).1 ∧
    "git push origin --delete rollback_develop_qimacert_v2.02" ∉
      (legacyExecute "2.02" lenv).1 ∧
    "git push origin --delete release_develop_qimacert_2.02" ∉
      (legacyExecute "2.02" lenv).1 := by
  have hpre : ∀ c ∈ legacyPreCmds "2.02" lenv, lenv.cmdOk c = true := by
    intro c hc
    apply hok
    cases hb : lenv.currentBranchOutput == "develop-qimacert" <;>
      simp [legacyPreCmds, hb] at hc <;>
      rcases hc with rfl | rfl | rfl | rfl | rfl | rfl | rfl | rfl | rfl | rfl | rfl | rfl <;>
      decide
  have habort : lenv.cmdOk "git merge --abort" = true := hok _ (by decide)
  have hres : legacyExecute "2.02" lenv =
      (legacyPreCmds "2.02" lenv ++ ["git merge develop", "git merge --abort"],
        some "Merge aborted by user") := by
    simp [legacyExecute, seqRun_all_ok lenv (legacyPreCmds "2.02" lenv) [] hpre,
      hm, ha, habort]
  rw [hres]
  cases hb : lenv.currentBranchOutput == "develop-qimacert" <;>
    simp only [legacyPreCmds, hb] <;> decide

/-- Witness for the amended C6 at the concrete aborting environment. -/
theorem c6_amended_abort_no_rollback_witness :
    (legacyExecute "2.02" legacyEnvAbort).2 = some "Merge aborted by user" ∧
    containsSub "aborted" "Merge aborted by user" = true ∧
    "git merge --abort" ∈ (legacyExecute "2.02" legacyEnvAbort).1 ∧
    "git tag -d rollback_develop_qimacert_v2.02" ∉ (legacyExecute "2.02" legacyEnvAbort).1 ∧
    "git branch -D release_develop_qimacert_2.02" ∉ (legacyExecute "2.02" legacyEnvAbort).1 ∧
    "git push origin --delete rollback_develop_qimacert_v2.02" ∉
      (legacyExecute "2.02" legacyEnvAbort).1 ∧
    "git push origin --delete release_develop_qimacert_2.02" ∉
      (legacyExecute "2.02" legacyEnvAbort).1 :=
  c6_amended_abort_no_rollback legacyEnvAbort
    (fun c hc => by simp [legacyEnvAbort, hc]) (by decide) rfl

/-- C7 counterexample: with every createdItems flag set and a simulated
failure deleting the remote tag, rollback stops there — the remote branch
deletion is never attempted, so the deletions are not independent. -/
theorem c7_counterexample :
    performRollback ciAll "v_qimacert_2.02" "release_v_qimacert_2.02" qimaEnvRemoteTagFails =
      ["git checkout develop", "git branch -D release_v_qimacert_2.02",
        "git tag -d v_qimacert_2.02", "git push origin --delete v_qimacert_2.02"] ∧
    "git push origin --delete release_v_qimacert_2.02" ∉
      performRollback ciAll "v_qimacert_2.02" "release_v_qimacert_2.02" qimaEnvRemoteTagFails := by
  decide

/-- C7 amended: with all flags set, rollback runs the deletions sequentially
in the order local branch, local tag, remote tag, remote branch (after a
checkout of develop), attempting each kind exactly once when everything
succeeds; the commands run inside a single try block, so the first failing
deletion ends the rollback and the remaining deletions are not attempted (the
failure is caught, so the method itself never throws). -/
theorem c7_amended_rollback_sequential (vT rB : String) (env : QimaEnv) :
    ((∀ c, env.cmdOk c = true) →
      performRollback ciAll vT rB env =
        ["git checkout develop", "git branch -D " ++ rB, "git tag -d " ++ vT,
          "git push origin --delete " ++ vT, "git push origin --delete " ++ rB]) ∧
    (env.cmdOk "git checkout develop" = true →
      env.cmdOk ("git branch -D " ++ rB) = true →
      env.cmdOk ("git tag -d " ++ vT) = true →
      env.cmdOk ("git push origin --delete " ++ vT) = false →
      performRollback ciAll vT rB env =
        ["git checkout develop", "git branch -D " ++ rB, "git tag -d " ++ vT,
          "git push origin --delete " ++ vT]) := by
  constructor
  · intro h
    simp [performRollback, rollbackCmds, ciAll, runCmds, h]
  · intro h1 h2 h3 h4
    simp [performRollback, rollbackCmds, ciAll, runCmds, h1, h2, h3, h4]

/-- Witness for the amended C7: an all-success rollback and a rollback whose
remote tag deletion fails. -/
theorem c7_amended_rollback_sequential_witness :
    performRollback ciAll "v1" "b1" qimaEnvAllOk =
      ["git checkout develop", "git branch -D " ++ "b1", "git tag -d " ++ "v1",
        "git push origin --delete " ++ "v1", "git push origin --delete " ++ "b1"] ∧
    performRollback ciAll "v_qimacert_2.02" "release_v_qimacert_2.02" qimaEnvRemoteTagFails =
      ["git checkout develop", "git branch -D " ++ "release_v_qimacert_2.02",
        "git tag -d " ++ "v_qimacert_2.02",
        "git push origin --delete " ++ "v_qimacert_2.02"] :=
  ⟨(c7_amended_rollback_sequential "v1" "b1" qimaEnvAllOk).1 (fun _ => rfl),
    (c7_amended_rollback_sequential "v_qimacert_2.02" "release_v_qimacert_2.02"
        qimaEnvRemoteTagFails).2 (by decide) (by decide) (by decide) (by decide)⟩

/-- C8: at every point of a QimaReleasePlugin run, the createdItems record
satisfies the invariant that a pushed flag is set only if the corresponding
created flag is set, whatever command fails. -/
theorem c8_created_items_invariant (version : String) (env : QimaEnv)
    (s : CreatedItems) (hs : s ∈ qimaExecuteStates version env) :
    (s.tagPushed = true → s.tag = true) ∧
    (s.releaseBranchPushed = true → s.releaseBranch = true) := by
  unfold qimaExecuteStates at hs
  split_ifs at hs <;> fin_cases hs <;> decide

/-- Witness for C8 at a concrete run state. -/
theorem c8_created_items_invariant_witness :
    (⟨true, true, false, false⟩ : CreatedItems) ∈ qimaExecuteStates "2.02" qimaEnvAllOk ∧
    (((⟨true, true, false, false⟩ : CreatedItems).tagPushed = true →
        (⟨true, true, false, false⟩ : CreatedItems).tag = true) ∧
      ((⟨true, true, false, false⟩ : CreatedItems).releaseBranchPushed = true →
        (⟨true, true, false, false⟩ : CreatedItems).releaseBranch = true)) :=
  ⟨by decide,
    c8_created_items_invariant "2.02" qimaEnvAllOk ⟨true, true, false, false⟩ (by decide)⟩

/-- C9: over concrete git semantics the first standard run on a clean
repository never completes: it fails at step 9 because the final release
branch name equals the release branch created at step 4 (so a fully
successful run cannot precede a re-run); the rollback tag was created, and a
second run of the same request on the resulting repository then fails at the
tag-creation step with the tag-already-exists error reported in the result,
creating no duplicate artifacts. -/
theorem c9_rerun_fails_at_tag_creation :
    (standardReleaseRunGit "repo" "1.0.0" bbStd envWAllOk cleanWorld).1.success = false ∧
    (standardReleaseRunGit "repo" "1.0.0" bbStd envWAllOk cleanWorld).1.error =
      some "Failed to create branch release_develop_1.0.0" ∧
    (standardReleaseRunGit "repo" "1.0.0" bbStd envWAllOk cleanWorld).1.rollbackTag =
      some "rollback_develop_v1.0.0" ∧
    "rollback_develop_v1.0.0" ∈
      (standardReleaseRunGit "repo" "1.0.0" bbStd envWAllOk cleanWorld).2.localTags ∧
    (standardReleaseRunGit "repo" "1.0.0" bbStd envWAllOk
        (standardReleaseRunGit "repo" "1.0.0" bbStd envWAllOk cleanWorld).2).1.success = false ∧
    (standardReleaseRunGit "repo" "1.0.0" bbStd envWAllOk
        (standardReleaseRunGit "repo" "1.0.0" bbStd envWAllOk cleanWorld).2).1.error =
      some "Failed to create tag rollback_develop_v1.0.0" ∧
    (standardReleaseRunGit "repo" "1.0.0" bbStd envWAllOk
        (standardReleaseRunGit "repo" "1.0.0" bbStd envWAllOk cleanWorld).2).1.rollbackTag = none ∧
    (standardReleaseRunGit "repo" "1.0.0" bbStd envWAllOk
        (standardReleaseRunGit "repo" "1.0.0" bbStd envWAllOk cleanWorld).2).2.localTags =
      (standardReleaseRunGit "repo" "1.0.0" bbStd envWAllOk cleanWorld).2.localTags := by
  decide

/-- C10: pushTag t pushes every local tag present at call time to origin, not
only t — its result does not depend on the tag argument at all, and after a
successful push every local tag is among the remote tags. -/
theorem c10_pushTag_pushes_all_local_tags (t u : String) (env : GitEnvW)
    (w : GitWorld) (hp : env.pushTagsOk = true) (hu : u ∈ w.localTags) :
    (∀ t2, pushTagW t2 env w = pushTagW t env w) ∧
    pushTagW t env w = .ok { w with remoteTags :=
      w.remoteTags ++ w.localTags.filter (fun x => !(w.remoteTags.contains x)) } ∧
    ∀ w2, pushTagW t env w = .ok w2 → u ∈ w2.remoteTags := by
  refine ⟨fun t2 => by simp [pushTagW, hp], by simp [pushTagW, hp], ?_⟩
  intro w2 h
  simp only [pushTagW, hp, if_true, Except.ok.injEq] at h
  subst h
  simp only [List.mem_append, List.mem_filter]
  by_cases hm : u ∈ w.remoteTags
  · exact Or.inl hm
  · refine Or.inr ⟨hu, ?_⟩
    simp only [List.contains]
    simpa using hm

/-- Witness for C10: pushing an unrelated tag also pushes the other local
tag. -/
theorem c10_pushTag_pushes_all_local_tags_witness :
    envWAllOk.pushTagsOk = true ∧ "other_tag" ∈ worldTwoTags.localTags ∧
    ∀ w2, pushTagW "rollback_x" envWAllOk worldTwoTags = .ok w2 →
      "other_tag" ∈ w2.remoteTags :=
  ⟨rfl, by decide,
    (c10_pushTag_pushes_all_local_tags "rollback_x" "other_tag" envWAllOk
      worldTwoTags rfl (by decide)).2.2⟩

end Automtr
